/-
Verification of the Ebay-WooCommerce-Shim sync cache and sync logic.

Shallow embedding of `bin/shim/db.py`, `bin/shim/ebay.py` and
`bin/shim/woo.py`.  The SQLite `items` and `item_metadata` tables are
modelled as lists of rows in rowid order; SQL queries become list
operations that mirror the WHERE clauses (including SQL operator
precedence, where AND binds tighter than OR).  Timestamps and formatted
ISO-8601 date strings are modelled by integers / (day, millisecond)
pairs whose order coincides with the lexicographic order of the strings
the code actually compares (valid for four-digit years, which is the
whole range the code handles).  Python calls that raise are modelled
with `Except`.
-/
import Mathlib

/-- One row of the `items` table (schema from `Database.__create_tables`
plus the `post_id` column added by migration 1 in
`Database.__migrate_tables`).  `description` and `post_id` are nullable;
every other column is always written by `db_store_item_from_ebay`.
`start_date`, `end_date` are integer codes whose order mirrors the order
SQLite gives the stored timestamp strings. -/
structure ItemRow where
  itemid : Nat
  active : String
  available_quantity : Int
  title : String
  sku : String
  start_date : Int
  end_date : Int
  category_id : Int
  category_name : String
  condition_name : String
  condition_description : String
  description : Option String
  post_id : Option Nat
deriving DecidableEq, Repr

/-- One row of the `item_metadata` table: autoincrement `id`, owning
`itemid`, the key/value pair, and the nullable `post_id` column added by
migration 1 (records the uploaded media id for that row). -/
structure MetaRow where
  id : Nat
  itemid : Nat
  key : String
  value : String
  post_id : Option Nat
deriving DecidableEq, Repr

/-- The fields of the GetSellerList / GetItem response dictionary that
`db_store_item_from_ebay` reads.  `conditionDisplayName` /
`conditionDescription` are `none` when the key is absent; a present but
empty string is falsy in Python, which coincides with the `""` default. -/
structure EbayItem where
  itemID : Nat
  listingStatus : String
  quantity : Int
  quantitySold : Int
  title : String
  sku : String
  startTime : Int
  endTime : Int
  categoryID : Int
  categoryName : String
  conditionDisplayName : Option String
  conditionDescription : Option String
deriving DecidableEq, Repr

/-- SQLite `INSERT OR REPLACE` keyed on the INTEGER PRIMARY KEY
`itemid`: a conflicting row is deleted and the new row inserted with the
same rowid (modelled as replacement in place); with no conflict the row
is appended. -/
def upsertRow (items : List ItemRow) (row : ItemRow) : List ItemRow :=
  if items.any (fun r => r.itemid == row.itemid) then
    items.map (fun r => if r.itemid == row.itemid then row else r)
  else
    items ++ [row]

/-- The row written by `Database.db_store_item_from_ebay`: the `values`
dictionary it builds, completed to a full row by the `INSERT OR REPLACE
INTO items (itemid, active, available_quantity, title, sku, start_date,
end_date, category_id, category_name, condition_name,
condition_description) VALUES (...)` statement — `description` and
`post_id` are not in the column list, so the replacing row gets their
default value NULL.  A present-but-empty condition string is falsy in
Python and leaves the `''` default, which coincides with `getD ""`. -/
def ebayItemRow (it : EbayItem) : ItemRow :=
  { itemid := it.itemID
    active := it.listingStatus
    available_quantity := it.quantity - it.quantitySold
    title := it.title
    sku := it.sku
    start_date := it.startTime
    end_date := it.endTime
    category_id := it.categoryID
    category_name := it.categoryName
    condition_name := it.conditionDisplayName.getD ""
    condition_description := it.conditionDescription.getD ""
    description := none
    post_id := none }

/-- The `INSERT OR REPLACE` statement of `db_store_item_from_ebay`,
applied to the `values` dictionary above. -/
def db_store_item_from_ebay (items : List ItemRow) (it : EbayItem) : List ItemRow :=
  upsertRow items (ebayItemRow it)

/-- Rows matching the exact `(itemid, key, value)` triple, as selected
by the `query_for_existing` statement in `Database.__store_key_value`. -/
def matchingTriples (md : List MetaRow) (item_id : Nat) (k v : String) : List MetaRow :=
  md.filter (fun r => r.itemid == item_id && r.key == k && r.value == v)

/-- The row inserted by the `query_to_insert` statement of
`__store_key_value`: the triple with a NULL `post_id` and a fresh
autoincrement id (one more than the largest id present). -/
def freshMetaRow (md : List MetaRow) (item_id : Nat) (k v : String) : MetaRow :=
  { id := (md.map (fun r => r.id)).foldr Nat.max 0 + 1
    itemid := item_id
    key := k
    value := v
    post_id := none }

/-- `Database.__store_key_value`: counts the rows matching the exact
triple; inserts the triple only when the count is zero (otherwise only
a debug message is logged). -/
def store_key_value (md : List MetaRow) (item_id : Nat) (k v : String) : List MetaRow :=
  let metadata_count := (matchingTriples md item_id k v).length
  if metadata_count == 0 then
    md ++ [freshMetaRow md item_id k v]
  else
    md

/-- `Database.__fetchone` over a query result: `cursor.fetchone()`
yields the first row or `None`; `dict(None)` raises `TypeError`, so an
empty result is an error, otherwise the requested column is projected
out of the row dictionary. -/
def fetchone (rows : List α) (proj : α → β) : Except String β :=
  match rows.head? with
  | some r => .ok (proj r)
  | none => .error "TypeError: argument of type NoneType is not a mapping"

/-- `Database.db_get_product_data`: `SELECT * FROM items WHERE
available_quantity > 0 AND itemid = :item_id LIMIT 1`, then
`dict(cursor.fetchone())` — which raises `TypeError` when no row
matched. -/
def db_get_product_data (items : List ItemRow) (item_id : Nat) : Except String ItemRow :=
  fetchone
    ((items.filter (fun r => decide (0 < r.available_quantity) && r.itemid == item_id)).take 1)
    id

/-- `Database.db_woo_get_post_id`: `SELECT post_id FROM items WHERE
itemid = :item_id`, then `__fetchone('post_id')` — `dict(None)` raises
`TypeError` when the item is absent; an existing row with NULL
`post_id` yields `None`. -/
def db_woo_get_post_id (items : List ItemRow) (item_id : Nat) : Except String (Option Nat) :=
  fetchone (items.filter (fun r => r.itemid == item_id)) (fun r => r.post_id)

/-- `Database.db_get_active_item_ids`: `SELECT itemid FROM items WHERE
active = 'Active' AND post_id IS NULL`, then drops falsy ids (`if
i['itemid']` drops the id 0). -/
def db_get_active_item_ids (items : List ItemRow) : List Nat :=
  ((items.filter (fun r => r.active == "Active" && r.post_id.isNone)).map
    (fun r => r.itemid)).filter (fun i => i != 0)

/-- `Database.db_get_inactive_uploaded_item_ids`: the WHERE clause is
`post_id is not NULL AND active != 'Active' OR end_date <= date('now')`;
SQL precedence makes this `(post_id IS NOT NULL AND active != 'Active')
OR end_date <= date('now')`.  `now` stands for the `date('now')` string
in the same order code as `end_date`.  Falsy ids are dropped as above. -/
def db_get_inactive_uploaded_item_ids (items : List ItemRow) (now : Int) : List Nat :=
  ((items.filter (fun r =>
      (r.post_id.isSome && r.active != "Active") || decide (r.end_date ≤ now))).map
    (fun r => r.itemid)).filter (fun i => i != 0)

/-- `Database.__mark_data_as_uploaded('metadata', post_id, item_id)`
(reached via `db_metadata_uploaded`): `UPDATE item_metadata SET post_id
= :post_id WHERE itemid = :item_id` — the WHERE clause is keyed on the
item id alone, so it touches every metadata row of the item. -/
def db_metadata_uploaded (md : List MetaRow) (post_id : Nat) (item_id : Nat) : List MetaRow :=
  md.map (fun r => if r.itemid == item_id then { r with post_id := some post_id } else r)

/-- `Database.db_product_uploaded` via
`__mark_data_as_uploaded('product', post_id, item_id)`: `UPDATE items
SET post_id = :post_id WHERE itemid = :item_id`. -/
def db_product_uploaded (items : List ItemRow) (post_id : Nat) (item_id : Nat) : List ItemRow :=
  items.map (fun r => if r.itemid == item_id then { r with post_id := some post_id } else r)

/-- A formatted ISO-8601 timestamp string `%Y-%m-%dT<time>Z` as compared
by `EbayShim.set_date_range`: `day` encodes the date part, `milli` the
millisecond of day.  For four-digit years, lexicographic comparison of
the formatted strings coincides with lexicographic comparison of these
pairs. -/
structure Timestamp where
  day : Int
  milli : Nat
deriving DecidableEq, Repr

/-- Strict order of the formatted timestamp strings (the Python
`stop_date < start_date` string comparison). -/
def tsLt (a b : Timestamp) : Bool :=
  decide (a.day < b.day) || (a.day == b.day && decide (a.milli < b.milli))

/-- Non-strict order of the formatted timestamp strings. -/
def tsLe (a b : Timestamp) : Bool :=
  decide (a.day < b.day) || (a.day == b.day && decide (a.milli ≤ b.milli))

/-- The `self.date_range` dictionary built by `set_date_range`. -/
structure DateRange where
  fromTs : Timestamp
  toTs : Timestamp
  rangeType : String
deriving DecidableEq, Repr

/-- `EbayShim.set_date_range(start_date, days)` in the branch the spec
describes (a concrete `start_date`, no `stop_date`): the stop date is
`start_date + timedelta(days)`; the start is formatted at
`T00:00:00.000Z` (millisecond 0) and the stop at `T23:59:59.999Z`
(millisecond 86399999); if the formatted stop string compares below the
formatted start string the two are swapped before being stored as
`from`/`to`. -/
def set_date_range (start_day : Int) (days : Int) (range_type : String) : DateRange :=
  let stop_day := start_day + days
  let start_ts : Timestamp := { day := start_day, milli := 0 }
  let stop_ts : Timestamp := { day := stop_day, milli := 86399999 }
  if tsLt stop_ts start_ts then
    { fromTs := stop_ts, toTs := start_ts, rangeType := range_type }
  else
    { fromTs := start_ts, toTs := stop_ts, rangeType := range_type }

/-- The pagination-relevant state of `EbayShim` during `get_seller_list`:
the three `pagination_*` counters, the optional `Pagination` entry of
`seller_filter_dict` (entries per page, page number), the optional
`DetailLevel` entry, the daily request counter row of `ebay_internals`,
and — for observability — the log of page numbers actually requested
from the API. -/
structure SellerState where
  pagination_total_items : Nat
  pagination_total_pages : Nat
  pagination_received_items : Nat
  entriesPerPage : Option Nat
  pageNumber : Option Nat
  detailLevel : Option String
  counter : Nat
  requestedPages : List Nat
deriving DecidableEq, Repr

/-- `EbayShim.__update_pagination(entries)`: clamp `entries` to 100 when
above the API maximum of 200; when no `Pagination` entry exists yet,
install one at page 1; otherwise advance the page number only while
both more pages and more items remain, resetting the received/total
counters (resp. the total page count) when they do not. -/
def update_pagination (entries : Nat) (s : SellerState) : SellerState :=
  let entries := if 200 < entries then 100 else entries
  match s.pageNumber with
  | none =>
      { s with entriesPerPage := some entries, pageNumber := some 1 }
  | some pn =>
      if s.pagination_total_pages > pn then
        if s.pagination_total_items > s.pagination_received_items then
          { s with pageNumber := some (pn + 1) }
        else
          { s with pagination_received_items := 0, pagination_total_items := 0 }
      else
        { s with pagination_total_pages := 0 }

/-- One GetSellerList response as far as pagination is concerned:
`PaginationResult.TotalNumberOfEntries`,
`PaginationResult.TotalNumberOfPages`, `ReturnedItemCountActual`,
indexed by the requested page number. -/
def SellerApi : Type := Nat → Nat × Nat × Nat

/-- `EbayShim.get_seller_list`: default the `DetailLevel`, advance
pagination, refuse with a faked received-items value when the daily
request counter has reached the rate limit, otherwise execute the
GetSellerList request for the current page, increment the request
counter and fold the response into the pagination counters.  (The
per-item storing of the returned page into the cache does not influence
pagination and is modelled elsewhere.) -/
def get_seller_list (rate_limit : Nat) (api : SellerApi) (s : SellerState) : SellerState :=
  let s :=
    if s.detailLevel.isNone then { s with detailLevel := some "ItemReturnDescription" } else s
  let s := update_pagination 100 s
  if rate_limit ≤ s.counter then
    { s with pagination_received_items := s.pagination_total_items + 1 }
  else
    let pn := s.pageNumber.getD 1
    let resp := api pn
    { s with
        counter := s.counter + 1
        pagination_total_items := resp.1
        pagination_total_pages := resp.2.1
        pagination_received_items := s.pagination_received_items + resp.2.2
        requestedPages := s.requestedPages ++ [pn] }

/-- The `while self.pagination_received_items < self.pagination_total_items`
loop inside `EbayShim.try_command('get_seller_list')`, with explicit
fuel bounding the number of further iterations. -/
def seller_list_loop (rate_limit : Nat) (api : SellerApi) : Nat → SellerState → SellerState
  | 0, s => s
  | fuel + 1, s =>
      if s.pagination_received_items < s.pagination_total_items then
        seller_list_loop rate_limit api fuel (get_seller_list rate_limit api s)
      else
        s

/-- The `get_seller_list` branch of `EbayShim.try_command`: when the
same-day guard (`db_ebay_got_seller_list_date`) admits the run, one
initial `get_seller_list` call populates the pagination counters and
the loop keeps calling while received items are below the total. -/
def try_command_get_seller_list (rate_limit : Nat) (api : SellerApi) (guard_ok : Bool)
    (fuel : Nat) (s : SellerState) : SellerState :=
  if guard_ok then
    seller_list_loop rate_limit api fuel (get_seller_list rate_limit api s)
  else
    s

/-- The state touched by `EbayShim.get_item_metadata`: the in-memory
`self.got_item_ids` list, the daily request counter, the log of item
ids for which a GetItem request was executed, and the log of successive
values written to the `got_item_ids` checkpoint row by
`db_ebay_store_got_item_ids`. -/
structure EbayMetaState where
  gotItemIds : List Nat
  counter : Nat
  fetched : List Nat
  checkpointWrites : List (List Nat)
deriving DecidableEq, Repr

/-- The `for item_id in self.got_item_ids` loop of
`EbayShim.get_item_metadata`, with Python's list-iterator semantics
made explicit: the iterator keeps an index `i` into the (mutated) list;
each step takes the element at `i` and `self.got_item_ids.remove(item_id)`
deletes its first occurrence; then the rate limit is checked — at the
limit the remaining list is persisted as the checkpoint and the loop
breaks, otherwise the GetItem request runs and the counter is
incremented.  `fuel` bounds the iteration count; `length + 1` always
suffices since every step shortens the list. -/
def meta_loop (rate_limit : Nat) : Nat → Nat → EbayMetaState → EbayMetaState
  | 0, _, s => s
  | fuel + 1, i, s =>
      if h : i < s.gotItemIds.length then
        let item_id := s.gotItemIds.get ⟨i, h⟩
        let remaining := s.gotItemIds.erase item_id
        if rate_limit ≤ s.counter then
          { s with
              gotItemIds := remaining
              checkpointWrites := s.checkpointWrites ++ [remaining] }
        else
          meta_loop rate_limit fuel (i + 1)
            { s with
                gotItemIds := remaining
                counter := s.counter + 1
                fetched := s.fetched ++ [item_id] }
      else
        s

/-- `EbayShim.get_item_metadata`: repopulate `got_item_ids` from the
active items when empty, run the detail-fetch loop, and afterwards —
`if self.got_item_ids:` — overwrite the checkpoint row with the empty
list whenever ids remain in memory. -/
def get_item_metadata (rate_limit : Nat) (activeIds : List Nat) (s : EbayMetaState) :
    EbayMetaState :=
  let s1 := if s.gotItemIds.isEmpty then { s with gotItemIds := activeIds } else s
  let s2 := meta_loop rate_limit (s1.gotItemIds.length + 1) 0 s1
  if s2.gotItemIds.isEmpty then
    s2
  else
    { s2 with checkpointWrites := s2.checkpointWrites ++ [[]] }

/-- Outcome of one execution of a dispatched command body, as seen by
the `except` clauses of `try_command` (both `WooCommerceShim.try_command`
and `EbayShim.try_command` share this shape): the body either returns,
raises one of the caught timeout-class errors, or raises a
connection-level error. -/
inductive NetOutcome
  | ok
  | timeoutErr
  | connErr
deriving DecidableEq, Repr

/-- Number of executions of the command body performed by `try_command`
when successive executions produce the given outcomes: the timeout
handler sleeps five seconds and recursively calls
`self.try_command(command, data)` with the same arguments, so a timeout
leads to a further full `try_command` run on the remaining outcomes,
while any other outcome ends the recursion (returned, logged
connection error, or propagated exception).  An exhausted outcome list
means no execution happens. -/
def try_command_attempts : List NetOutcome → Nat
  | [] => 0
  | o :: rest => 1 + (if o == NetOutcome.timeoutErr then try_command_attempts rest else 0)

/-- The `DEFAULT_DESCRIPTION` constant of `bin/shim/woo.py`. -/
def DEFAULT_DESCRIPTION : String :=
  "\n<strong style=\"align-text:center;font-size:21px;\">Request the price</strong>\n[wpforms id=\"5280\"]\n"

/-- One entry of the category-mapping file: the list under `ebay_ids`,
the `wc-name` string and the `wc-id` destination category. -/
structure MapEntry where
  ebayIds : List Int
  wcName : String
  wcId : Int
deriving DecidableEq, Repr

/-- `WooCommerceShim.__search_map(value, 'ebay_ids')`: the list
comprehension keeps the entries whose `ebay_ids` contain the value and
the first match's `wc-id` is returned; on `IndexError` the method calls
itself as `__search_map('Uncategorized', 'wc-name')`, a substring test
against `wc-name`.  When that also finds nothing the Python recursion
never terminates (flagged as an open question in the source); that
branch is modelled as no category. -/
def search_map (mapping : List MapEntry) (value : Int) : Option Int :=
  match (mapping.filter (fun e => e.ebayIds.contains value)).head? with
  | some e => some e.wcId
  | none =>
      match (mapping.filter (fun e => e.wcName.containsSubstr "Uncategorized")).head? with
      | some e => some e.wcId
      | none => none

/-- `WooCommerceShim.get_mapped_category_id`: `None` without a mapping
table, otherwise a `__search_map` lookup. -/
def get_mapped_category_id (mapping : Option (List MapEntry)) (cat : Int) : Option Int :=
  match mapping with
  | some m => search_map m cat
  | none => none

/-- `WooCommerceShim.does_product_exist`: truthiness of the `post_id`
column of `db_get_product_data` (which raises for an absent row). -/
def does_product_exist (items : List ItemRow) (item_id : Nat) : Except String Bool :=
  match db_get_product_data items item_id with
  | .error e => .error e
  | .ok data => .ok data.post_id.isSome

/-- The `upload_data` dictionary submitted by
`WooCommerceShim.create_product` via `self.api.post('products', ...)`;
`categories` is the optional `[ {id: category_id} ]` entry. -/
structure UploadData where
  name : String
  typ : String
  short_description : String
  description : String
  sku : String
  categories : Option Int
deriving DecidableEq, Repr

/-- The request-construction part of `WooCommerceShim.create_product`:
skip (no API call, `none`) when the product already exists, otherwise
read the cached row and build `upload_data` — `name` from the title,
type `simple`, `short_description` from the condition description, the
fixed `DEFAULT_DESCRIPTION` as description, the cached SKU, and the
mapped category when a mapping table is configured. -/
def create_product_request (items : List ItemRow) (mapping : Option (List MapEntry))
    (item_id : Nat) : Except String (Option UploadData) :=
  match does_product_exist items item_id with
  | .error e => .error e
  | .ok true => .ok none
  | .ok false =>
      match db_get_product_data items item_id with
      | .error e => .error e
      | .ok data =>
          .ok (some
            { name := data.title
              typ := "simple"
              short_description := data.condition_description
              description := DEFAULT_DESCRIPTION
              sku := data.sku
              categories := get_mapped_category_id mapping data.category_id })

/-- Membership in the result of an `INSERT OR REPLACE`: a row of the new
table is either the inserted row or an untouched old row whose key
differs from the inserted one. -/
theorem mem_upsertRow {items : List ItemRow} {row r : ItemRow}
    (h : r ∈ upsertRow items row) : r = row ∨ (r ∈ items ∧ r.itemid ≠ row.itemid) := by
  unfold upsertRow at h
  split at h
  · rcases List.mem_map.mp h with ⟨a, ha, hmap⟩
    by_cases he : (a.itemid == row.itemid) = true
    · left
      rw [← hmap, if_pos he]
    · right
      rw [← hmap, if_neg he]
      exact ⟨ha, by simpa using he⟩
  · next hc =>
    rcases List.mem_append.mp h with ha | hb
    · right
      refine ⟨ha, ?_⟩
      have hall : ∀ a ∈ items, ¬((fun x => x.itemid == row.itemid) a = true) := by
        simpa using List.any_eq_true.not.mp hc
      simpa using hall r ha
    · left
      exact List.mem_singleton.mp hb

/-- The inserted row is always present after an `INSERT OR REPLACE`. -/
theorem self_mem_upsertRow (items : List ItemRow) (row : ItemRow) :
    row ∈ upsertRow items row := by
  unfold upsertRow
  split
  · next hc =>
    rcases List.any_eq_true.mp hc with ⟨a, ha, he⟩
    exact List.mem_map.mpr ⟨a, ha, by rw [if_pos he]⟩
  · exact List.mem_append.mpr (Or.inr (List.mem_singleton.mpr rfl))

/-- Cache state for the C1 counterexample: item 1 has been pushed
(`post_id = 5`). -/
def c1_items : List ItemRow :=
  [{ itemid := 1, active := "Active", available_quantity := 2, title := "t", sku := "s",
     start_date := 0, end_date := 10, category_id := 7, category_name := "c",
     condition_name := "n", condition_description := "d", description := none,
     post_id := some 5 }]

/-- The same item as returned again by GetSellerList. -/
def c1_item : EbayItem :=
  { itemID := 1, listingStatus := "Active", quantity := 3, quantitySold := 1, title := "t2",
    sku := "s2", startTime := 1, endTime := 11, categoryID := 7, categoryName := "c",
    conditionDisplayName := none, conditionDescription := none }

/-- C1 counterexample: item 1 has `post_id = 5`; re-running the source
upsert `db_store_item_from_ebay` for it leaves the cache reporting a
null `post_id` — the claim that the re-run leaves the post_id set is
false. -/
theorem c1_upsert_clears_post_id_cex :
    db_woo_get_post_id c1_items 1 = .ok (some 5) ∧
    db_woo_get_post_id (db_store_item_from_ebay c1_items c1_item) 1 = .ok none :=
  ⟨rfl, rfl⟩

/-- C1 (amended): re-running the source upsert
(`db_store_item_from_ebay`) for an item resets that item's `post_id` to
null, whatever it was before: the `INSERT OR REPLACE` replaces the whole
row and `post_id` is not among the inserted columns.  After the upsert
the item's row exists and every row carrying the item's id has a null
`post_id`. -/
theorem c1_upsert_resets_post_id_to_null (items : List ItemRow) (it : EbayItem) :
    (∃ r ∈ db_store_item_from_ebay items it, r.itemid = it.itemID ∧ r.post_id = none) ∧
    (∀ r ∈ db_store_item_from_ebay items it, r.itemid = it.itemID → r.post_id = none) := by
  constructor
  · exact ⟨ebayItemRow it, self_mem_upsertRow items (ebayItemRow it), rfl, rfl⟩
  · intro r hr hid
    rcases mem_upsertRow hr with h | ⟨_, hne⟩
    · rw [h]
      rfl
    · exact absurd hid hne

/-- C1 witness: the amended theorem evaluated on the concrete
counterexample state. -/
theorem c1_upsert_resets_post_id_to_null_wit :
    (ebayItemRow c1_item).post_id = none :=
  (c1_upsert_resets_post_id_to_null c1_items c1_item).2 (ebayItemRow c1_item)
    (by decide) (by decide)

/-- C2: with pending ids `[1, 2, 3]`, the daily counter at 999 and the
limit at 1000, `get_item_metadata` fetches only item 1 (the in-loop
`remove` shifts the iterator past item 2), the rate-limit branch
persists `[2]` (silently dropping 3), and the post-loop
`if self.got_item_ids:` write immediately overwrites the checkpoint
with `[]` — the remaining ids are not persisted, contradicting the
claim (and the checkpoint's documented purpose).  Second conjunct: even
far below the budget, pending ids `[1, 2]` lead to item 2 never being
fetched, contradicting "every id is detail-fetched exactly once". -/
theorem c2_detail_fetch_skips_and_wipes_checkpoint :
    get_item_metadata 1000 []
        { gotItemIds := [1, 2, 3], counter := 999, fetched := [], checkpointWrites := [] } =
      { gotItemIds := [2], counter := 1000, fetched := [1], checkpointWrites := [[2], []] } ∧
    get_item_metadata 1000 []
        { gotItemIds := [1, 2], counter := 0, fetched := [], checkpointWrites := [] } =
      { gotItemIds := [2], counter := 1, fetched := [1], checkpointWrites := [[]] } :=
  ⟨rfl, rfl⟩

/-- Cache state for C3: one item that was never pushed (`post_id` null),
still marked Active, whose end date (0) lies before `now` (10). -/
def c3_items : List ItemRow :=
  [{ itemid := 1, active := "Active", available_quantity := 2, title := "t", sku := "s",
     start_date := 0, end_date := 0, category_id := 7, category_name := "c",
     condition_name := "n", condition_description := "d", description := none,
     post_id := none }]

/-- C3: `db_get_inactive_uploaded_item_ids` returns item 1 even though
its row has a null `post_id` (and is still Active): because AND binds
tighter than OR in the WHERE clause, `end_date <= date('now')` alone
suffices for selection.  This contradicts the claim that every returned
id has a destination post id AND (status not active OR end date
passed). -/
theorem c3_inactive_query_returns_null_post_id :
    db_get_inactive_uploaded_item_ids c3_items 10 = [1] ∧
    ∀ r ∈ c3_items, r.post_id = none ∧ r.active = "Active" := by
  refine ⟨rfl, ?_⟩
  decide

/-- Cache state for C5: item 1 exists but has zero available quantity. -/
def c5_items : List ItemRow :=
  [{ itemid := 1, active := "Active", available_quantity := 0, title := "t", sku := "s",
     start_date := 0, end_date := 10, category_id := 7, category_name := "c",
     condition_name := "n", condition_description := "d", description := none,
     post_id := none }]

/-- C5: reads for a non-existent item (or one with zero available
quantity) do not return an empty/absent result — `cursor.fetchone()`
yields `None` and `dict(None)` raises `TypeError`, in
`db_get_product_data` as well as `db_woo_get_post_id`
(via `__fetchone`). -/
theorem c5_missing_item_read_raises_typeerror :
    db_get_product_data ([] : List ItemRow) 1 =
      .error "TypeError: argument of type NoneType is not a mapping" ∧
    db_woo_get_post_id ([] : List ItemRow) 1 =
      .error "TypeError: argument of type NoneType is not a mapping" ∧
    db_get_product_data c5_items 1 =
      .error "TypeError: argument of type NoneType is not a mapping" :=
  ⟨rfl, rfl, rfl⟩

/-- C4 counterexample: if the first two executions of a dispatched
command time out and the third returns, `try_command` executes the
command body three times — the second timeout does not propagate, it
triggers a further retry, so "exactly one retry" fails. -/
theorem c4_second_timeout_retries_again_cex :
    ¬ (try_command_attempts [NetOutcome.timeoutErr, NetOutcome.timeoutErr, NetOutcome.ok] ≤ 2) := by
  decide

/-- C4 (amended): a timeout-class error makes `try_command` re-dispatch
the same command with the same arguments after the fixed 5-second
delay, by calling itself recursively — and because the recursive call
installs the same handler, retries continue for as long as timeouts
recur (k consecutive timeouts yield k + 1 executions, and are never
given up on), rather than exactly once; any non-timeout outcome ends
the retrying immediately. -/
theorem c4_retry_until_non_timeout :
    (∀ k : Nat,
      try_command_attempts (List.replicate k NetOutcome.timeoutErr ++ [NetOutcome.ok]) = k + 1) ∧
    (∀ k : Nat, try_command_attempts (List.replicate k NetOutcome.timeoutErr) = k) ∧
    (∀ (o : NetOutcome) (rest : List NetOutcome), o ≠ NetOutcome.timeoutErr →
      try_command_attempts (o :: rest) = 1) := by
  refine ⟨?_, ?_, ?_⟩
  · intro k
    induction k with
    | zero => rfl
    | succ n ih =>
        rw [List.replicate_succ, List.cons_append]
        unfold try_command_attempts
        rw [if_pos (show (NetOutcome.timeoutErr == NetOutcome.timeoutErr) = true from rfl), ih]
        omega
  · intro k
    induction k with
    | zero => rfl
    | succ n ih =>
        rw [List.replicate_succ]
        unfold try_command_attempts
        rw [if_pos (show (NetOutcome.timeoutErr == NetOutcome.timeoutErr) = true from rfl), ih]
        omega
  · intro o rest ho
    cases o with
    | ok => rfl
    | timeoutErr => exact absurd rfl ho
    | connErr => rfl

/-- C4 witness: the amended theorem at concrete inputs — two timeouts
then a return give three executions; a connection error gives one. -/
theorem c4_retry_until_non_timeout_wit :
    try_command_attempts (List.replicate 2 NetOutcome.timeoutErr ++ [NetOutcome.ok]) = 3 ∧
    try_command_attempts [NetOutcome.connErr] = 1 :=
  ⟨c4_retry_until_non_timeout.1 2,
   c4_retry_until_non_timeout.2.2 NetOutcome.connErr [] (by decide)⟩

/-- Metadata table for C6: two picture rows of item 1 (neither uploaded
yet) and one row of item 2. -/
def c6_md : List MetaRow :=
  [{ id := 1, itemid := 1, key := "picture_url", value := "a", post_id := none },
   { id := 2, itemid := 1, key := "picture_url", value := "b", post_id := none },
   { id := 3, itemid := 2, key := "k", value := "v", post_id := none }]

/-- C6 counterexample: recording media id 99 for item 1 after uploading
its first image also sets `post_id = 99` on item 1's other metadata row
(row id 2), which the claim says is left unchanged. -/
theorem c6_marks_other_rows_cex :
    c6_md[1]? =
      some { id := 2, itemid := 1, key := "picture_url", value := "b", post_id := none } ∧
    (db_metadata_uploaded c6_md 99 1)[1]? =
      some { id := 2, itemid := 1, key := "picture_url", value := "b", post_id := some 99 } :=
  ⟨rfl, rfl⟩

/-- C6 (amended): `db_metadata_uploaded` records the returned media id
against every metadata row belonging to the item — the UPDATE is keyed
by item id, not by metadata row — while metadata rows of other items
are left unchanged. -/
theorem c6_marks_every_row_of_item (md : List MetaRow) (pid iid : Nat) :
    ∀ r ∈ db_metadata_uploaded md pid iid,
      (r.itemid = iid → r.post_id = some pid) ∧ (r.itemid ≠ iid → r ∈ md) := by
  intro r hr
  unfold db_metadata_uploaded at hr
  rcases List.mem_map.mp hr with ⟨a, ha, hmap⟩
  by_cases he : (a.itemid == iid) = true
  · rw [if_pos he] at hmap
    constructor
    · intro _
      rw [← hmap]
    · intro hne
      exfalso
      apply hne
      rw [← hmap]
      simpa using he
  · rw [if_neg he] at hmap
    have hane : a.itemid ≠ iid := by simpa using he
    constructor
    · intro heq
      rw [← hmap] at heq
      exact absurd heq hane
    · intro _
      rw [← hmap]
      exact ha

/-- C6 witness: the amended theorem applied to the concrete table —
item 2's row is untouched by marking item 1's metadata. -/
theorem c6_marks_every_row_of_item_wit :
    ({ id := 3, itemid := 2, key := "k", value := "v", post_id := none } : MetaRow) ∈ c6_md :=
  (c6_marks_every_row_of_item c6_md 99 1
      { id := 3, itemid := 2, key := "k", value := "v", post_id := none } (by decide)).2
    (by decide)

/-- Triple matching distributes over table concatenation. -/
theorem matchingTriples_append (l l' : List MetaRow) (iid : Nat) (k v : String) :
    matchingTriples (l ++ l') iid k v = matchingTriples l iid k v ++ matchingTriples l' iid k v :=
  List.filter_append _ _

/-- A freshly inserted triple matches its own existence query. -/
theorem matchingTriples_freshMetaRow (md' : List MetaRow) (iid : Nat) (k v : String) :
    matchingTriples [freshMetaRow md' iid k v] iid k v = [freshMetaRow md' iid k v] := by
  simp [matchingTriples, freshMetaRow]

/-- When no identical triple exists yet, `__store_key_value` appends the
fresh row. -/
theorem store_key_value_of_absent (md : List MetaRow) (iid : Nat) (k v : String)
    (h : (matchingTriples md iid k v).length = 0) :
    store_key_value md iid k v = md ++ [freshMetaRow md iid k v] := by
  unfold store_key_value
  rw [if_pos (by simpa using h)]

/-- When an identical triple already exists, `__store_key_value` leaves
the table unchanged. -/
theorem store_key_value_of_present (md : List MetaRow) (iid : Nat) (k v : String)
    (h : (matchingTriples md iid k v).length ≠ 0) :
    store_key_value md iid k v = md := by
  unfold store_key_value
  rw [if_neg (by simpa using h)]

/-- C7: inserting an identical `(item_id, key, value)` triple twice
stores it exactly once — the second insert is skipped by the explicit
existence check, so the table is unchanged and (starting from a table
without the triple) exactly one matching row exists; and any triple with
no identical row present (in particular one differing in any component
from the rows already stored) adds exactly one new row. -/
theorem c7_metadata_insert_idempotent (md : List MetaRow) (iid : Nat) (k v : String) :
    store_key_value (store_key_value md iid k v) iid k v = store_key_value md iid k v ∧
    ((matchingTriples md iid k v).length = 0 →
      (matchingTriples (store_key_value (store_key_value md iid k v) iid k v) iid k v).length
        = 1) ∧
    ((matchingTriples md iid k v).length = 0 →
      (store_key_value md iid k v).length = md.length + 1) := by
  by_cases h0 : (matchingTriples md iid k v).length = 0
  · have h1 : store_key_value md iid k v = md ++ [freshMetaRow md iid k v] :=
      store_key_value_of_absent md iid k v h0
    have hlen1 : (matchingTriples (store_key_value md iid k v) iid k v).length = 1 := by
      rw [h1, matchingTriples_append, List.length_append, h0, matchingTriples_freshMetaRow]
      rfl
    have hskip : store_key_value (store_key_value md iid k v) iid k v =
        store_key_value md iid k v :=
      store_key_value_of_present (store_key_value md iid k v) iid k v (by rw [hlen1]; omega)
    refine ⟨hskip, fun _ => ?_, fun _ => ?_⟩
    · rw [hskip, hlen1]
    · rw [h1, List.length_append]
      rfl
  · have h1 : store_key_value md iid k v = md := store_key_value_of_present md iid k v h0
    refine ⟨?_, fun h => absurd h h0, fun h => absurd h h0⟩
    rw [h1, h1]

/-- C7 witness: the theorem on the empty table — two identical inserts
leave one matching row, and the insert grew the table by one row. -/
theorem c7_metadata_insert_idempotent_wit :
    (matchingTriples (store_key_value (store_key_value [] 1 "Brand" "Acme") 1 "Brand" "Acme")
      1 "Brand" "Acme").length = 1 ∧
    (store_key_value [] 1 "Brand" "Acme").length = ([] : List MetaRow).length + 1 :=
  ⟨(c7_metadata_insert_idempotent [] 1 "Brand" "Acme").2.1 (by decide),
   (c7_metadata_insert_idempotent [] 1 "Brand" "Acme").2.2 (by decide)⟩

/-- A strict comparison of formatted timestamps implies the non-strict
one. -/
theorem tsLe_of_tsLt_true {a b : Timestamp} (h : tsLt a b = true) : tsLe a b = true := by
  simp only [tsLt, Bool.or_eq_true, Bool.and_eq_true, decide_eq_true_eq, beq_iff_eq] at h
  simp only [tsLe, Bool.or_eq_true, Bool.and_eq_true, decide_eq_true_eq, beq_iff_eq]
  omega

/-- A failed strict comparison of formatted timestamps yields the
reversed non-strict one. -/
theorem tsLe_of_tsLt_false {a b : Timestamp} (h : ¬ tsLt a b = true) : tsLe b a = true := by
  simp only [tsLt, Bool.or_eq_true, Bool.and_eq_true, decide_eq_true_eq, beq_iff_eq, not_or,
    not_and] at h
  simp only [tsLe, Bool.or_eq_true, Bool.and_eq_true, decide_eq_true_eq, beq_iff_eq]
  omega

/-- C8: for a start date `D` and `days = N > 0`, `set_date_range`
produces `from = D` at 00:00:00.000Z and `to = D + N` at 23:59:59.999Z;
for `N < 0` the two formatted values are swapped (`from` becomes
`D + N` at 23:59:59.999Z, `to` becomes `D` at 00:00:00.000Z); and in
every case `from <= to` holds. -/
theorem c8_set_date_range_window (D N : Int) (ty : String) :
    (0 < N → set_date_range D N ty =
      { fromTs := { day := D, milli := 0 }, toTs := { day := D + N, milli := 86399999 },
        rangeType := ty }) ∧
    (N < 0 → set_date_range D N ty =
      { fromTs := { day := D + N, milli := 86399999 }, toTs := { day := D, milli := 0 },
        rangeType := ty }) ∧
    tsLe (set_date_range D N ty).fromTs (set_date_range D N ty).toTs = true := by
  refine ⟨?_, ?_, ?_⟩
  · intro hN
    have h : ¬ (tsLt { day := D + N, milli := 86399999 } { day := D, milli := 0 } = true) := by
      simp only [tsLt, Bool.or_eq_true, Bool.and_eq_true, decide_eq_true_eq, beq_iff_eq]
      omega
    have h' := eq_false_of_ne_true h
    simp [set_date_range, h']
  · intro hN
    have h : tsLt { day := D + N, milli := 86399999 } { day := D, milli := 0 } = true := by
      simp only [tsLt, Bool.or_eq_true, Bool.and_eq_true, decide_eq_true_eq, beq_iff_eq]
      omega
    simp [set_date_range, h]
  · by_cases h : tsLt { day := D + N, milli := 86399999 } { day := D, milli := 0 } = true
    · simp [set_date_range, h, tsLe_of_tsLt_true h]
    · have h' := eq_false_of_ne_true h
      simp [set_date_range, h', tsLe_of_tsLt_false h]

/-- C8 witness: the theorem at `D = 0`, `N = 2` and `N = -2`. -/
theorem c8_set_date_range_window_wit :
    set_date_range 0 2 "Start" =
      { fromTs := { day := 0, milli := 0 }, toTs := { day := 2, milli := 86399999 },
        rangeType := "Start" } ∧
    set_date_range 0 (-2) "Start" =
      { fromTs := { day := -2, milli := 86399999 }, toTs := { day := 0, milli := 0 },
        rangeType := "Start" } :=
  ⟨(c8_set_date_range_window 0 2 "Start").1 (by decide),
   (c8_set_date_range_window 0 (-2) "Start").2.1 (by decide)⟩

/-- The GetSellerList responses of the C9 scenario: 250 items in total,
3 pages, pages 1 and 2 carry 100 items each, page 3 carries 50. -/
def api250 : SellerApi := fun pn =>
  (250, 3, if pn == 1 then 100 else if pn == 2 then 100 else if pn == 3 then 50 else 0)

/-- The seller-list state of a fresh `EbayShim` (all pagination
counters zero, no filters set, no requests issued today). -/
def sellerInit : SellerState :=
  { pagination_total_items := 0, pagination_total_pages := 0, pagination_received_items := 0,
    entriesPerPage := none, pageNumber := none, detailLevel := none, counter := 0,
    requestedPages := [] }

/-- State after the first page request of the C9 scenario. -/
def c9s1 : SellerState :=
  { pagination_total_items := 250, pagination_total_pages := 3,
    pagination_received_items := 100, entriesPerPage := some 100, pageNumber := some 1,
    detailLevel := some "ItemReturnDescription", counter := 1, requestedPages := [1] }

/-- State after the second page request of the C9 scenario. -/
def c9s2 : SellerState :=
  { pagination_total_items := 250, pagination_total_pages := 3,
    pagination_received_items := 200, entriesPerPage := some 100, pageNumber := some 2,
    detailLevel := some "ItemReturnDescription", counter := 2, requestedPages := [1, 2] }

/-- State after the third page request of the C9 scenario. -/
def c9s3 : SellerState :=
  { pagination_total_items := 250, pagination_total_pages := 3,
    pagination_received_items := 250, entriesPerPage := some 100, pageNumber := some 3,
    detailLevel := some "ItemReturnDescription", counter := 3, requestedPages := [1, 2, 3] }

/-- Once the received-item count has reached the total, the seller-list
loop stops regardless of the remaining fuel. -/
theorem seller_list_loop_done (rl : Nat) (api : SellerApi) (fuel : Nat) (s : SellerState)
    (h : ¬ s.pagination_received_items < s.pagination_total_items) :
    seller_list_loop rl api fuel s = s := by
  cases fuel with
  | zero => rfl
  | succ n => simp [seller_list_loop, h]

/-- While items are missing, the seller-list loop performs one more
`get_seller_list` call. -/
theorem seller_list_loop_step (rl : Nat) (api : SellerApi) (m : Nat) (s : SellerState)
    (h : s.pagination_received_items < s.pagination_total_items) :
    seller_list_loop rl api (m + 1) s = seller_list_loop rl api m (get_seller_list rl api s) := by
  simp [seller_list_loop, h]

/-- C9: with the marketplace reporting 250 total items at page size
100, `try_command('get_seller_list')` issues exactly the three page
requests 1, 2, 3 and terminates — after the third response the received
count equals the total, so the loop condition fails and no fourth call
is issued, for any remaining fuel. -/
theorem c9_seller_list_three_requests (fuel : Nat) (hfuel : 2 ≤ fuel) :
    (try_command_get_seller_list 1000 api250 true fuel sellerInit).requestedPages = [1, 2, 3] ∧
    ¬ (try_command_get_seller_list 1000 api250 true fuel sellerInit).pagination_received_items <
        (try_command_get_seller_list 1000 api250 true fuel sellerInit).pagination_total_items
    := by
  obtain ⟨k, rfl⟩ : ∃ k, fuel = k + 2 := ⟨fuel - 2, by omega⟩
  have e1 : get_seller_list 1000 api250 sellerInit = c9s1 := by decide
  have e2 : get_seller_list 1000 api250 c9s1 = c9s2 := by decide
  have e3 : get_seller_list 1000 api250 c9s2 = c9s3 := by decide
  have hfinal : try_command_get_seller_list 1000 api250 true (k + 2) sellerInit = c9s3 := by
    show seller_list_loop 1000 api250 (k + 1 + 1) (get_seller_list 1000 api250 sellerInit) = c9s3
    rw [e1, seller_list_loop_step 1000 api250 (k + 1) c9s1 (by decide), e2,
      seller_list_loop_step 1000 api250 k c9s2 (by decide), e3,
      seller_list_loop_done 1000 api250 k c9s3 (by decide)]
  refine ⟨by rw [hfinal]; rfl, by rw [hfinal]; decide⟩

/-- C9 witness: the theorem with fuel 5. -/
theorem c9_seller_list_three_requests_wit :
    (try_command_get_seller_list 1000 api250 true 5 sellerInit).requestedPages = [1, 2, 3] :=
  (c9_seller_list_three_requests 5 (by decide)).1

/-- Cache state for the C10 witness: item 1 cached with quantity, not
yet pushed. -/
def c10_items : List ItemRow :=
  [{ itemid := 1, active := "Active", available_quantity := 2, title := "t", sku := "s",
     start_date := 0, end_date := 10, category_id := 7, category_name := "c",
     condition_name := "n", condition_description := "d", description := none,
     post_id := none }]

/-- The same item as returned by GetSellerList, including a marketplace
description-bearing condition. -/
def c10_item : EbayItem :=
  { itemID := 1, listingStatus := "Active", quantity := 3, quantitySold := 1, title := "t2",
    sku := "s2", startTime := 1, endTime := 11, categoryID := 7, categoryName := "c",
    conditionDisplayName := some "Used", conditionDescription := some "scratched" }

/-- C10: the marketplace item description is never propagated — the
source upsert leaves the `description` column NULL for every upserted
item (it is not in the INSERT column list), and whenever
`create_product` submits a create request, that request's description
is the fixed `DEFAULT_DESCRIPTION` placeholder, regardless of the
cached item's fields. -/
theorem c10_description_not_propagated (items : List ItemRow) (it : EbayItem)
    (mapping : Option (List MapEntry)) (item_id : Nat) :
    (∀ r ∈ db_store_item_from_ebay items it, r.itemid = it.itemID → r.description = none) ∧
    (∀ req : UploadData, create_product_request items mapping item_id = .ok (some req) →
      req.description = DEFAULT_DESCRIPTION) := by
  constructor
  · intro r hr hid
    rcases mem_upsertRow hr with h | ⟨_, hne⟩
    · rw [h]
      rfl
    · exact absurd hid hne
  · intro req hreq
    cases hdb : db_get_product_data items item_id with
    | error e =>
        have hex : does_product_exist items item_id = .error e := by
          unfold does_product_exist
          rw [hdb]
        unfold create_product_request at hreq
        rw [hex] at hreq
        exact Except.noConfusion hreq
    | ok data =>
        have hex : does_product_exist items item_id = .ok data.post_id.isSome := by
          unfold does_product_exist
          rw [hdb]
        unfold create_product_request at hreq
        rw [hex, hdb] at hreq
        cases hpost : data.post_id.isSome with
        | true =>
            rw [hpost] at hreq
            injection hreq with h1
            exact Option.noConfusion h1
        | false =>
            rw [hpost] at hreq
            injection hreq with h1
            injection h1 with h2
            rw [← h2]

/-- C10 witness: the theorem on the concrete item — the upserted row
has a NULL description, and the submitted request carries the
placeholder. -/
theorem c10_description_not_propagated_wit :
    (ebayItemRow c10_item).description = none ∧
    ({ name := "t", typ := "simple", short_description := "d",
       description := DEFAULT_DESCRIPTION, sku := "s", categories := none } :
        UploadData).description = DEFAULT_DESCRIPTION :=
  ⟨(c10_description_not_propagated c10_items c10_item none 1).1 (ebayItemRow c10_item)
      (by decide) (by decide),
   (c10_description_not_propagated c10_items c10_item none 1).2
      { name := "t", typ := "simple", short_description := "d",
        description := DEFAULT_DESCRIPTION, sku := "s", categories := none } rfl⟩
